import Mathlib

/-!
Verification development for the `ai-knowledge-base` repository.

The definitions below are a shallow embedding of the Python sources:

* `src/utils/text_splitter.py` — chunk-parameter selection (`get_text_splitter`,
  `_is_academic_document`, `_is_long_document`);
* `src/utils/vectordb_utils.py` — the vector-store operations
  (`add_documents_to_vectordb`, `delete_vector_db`, `embed_single_file`,
  `update_global_vectordb_with_file`, `rebuild_vectordb_for_files`);
* `src/utils/manager_utils.py` — `delete_category`;
* `src/core/document_chat_controller.py` — `get_category_docs_retriever`;
* `src/core/chat_controller.py` — the `category_qa` branch of `handle_chat`.

Filesystem state is modelled explicitly: the set of index directories is a
list of category keys, each index maps its key to the list of stored chunk
records, and external effects (document loaders, the embedding backend, the
Chroma insert calls, Google Drive sync) are parameters of an environment
record, so that every control-flow branch of the Python code is represented.
-/

set_option autoImplicit false

namespace AIKB

/-! ## Text splitting (`src/utils/text_splitter.py`, `src/config/config.py`) -/

/-- Default value of `CHUNK_SIZE` (`src/config/config.py` line 118). -/
def CHUNK_SIZE : Nat := 1000

/-- Default value of `CHUNK_OVERLAP` (`src/config/config.py` line 119). -/
def CHUNK_OVERLAP : Nat := 200

/-- The two parameters of a `RecursiveCharacterTextSplitter` that the claims
are about. -/
structure TextSplitter where
  chunkSize : Nat
  chunkOverlap : Nat
deriving DecidableEq, Repr

/-- Information about a file that `get_text_splitter` consults: its name
(`Path(file_path).name`) and its size in bytes (`os.path.getsize`). -/
structure FileInfo where
  name : String
  sizeBytes : Nat
deriving DecidableEq, Repr

/-- Check whether `needle` occurs as a contiguous run inside `hay`
(the Python `in` operator on strings), on character lists. -/
def containsSub (hay needle : List Char) : Bool :=
  match hay with
  | [] => needle.isEmpty
  | _ :: t => needle.isPrefixOf hay || containsSub t needle

/-- String version of `containsSub`: Python `needle in hay`. -/
def strContains (hay needle : String) : Bool :=
  containsSub hay.data needle.data

/-- Lower-case every character of a string (Python `str.lower`, restricted to
the ASCII keywords that `_is_academic_document` compares against). -/
def lowerStr (s : String) : String :=
  ⟨s.data.map Char.toLower⟩

/-- Keyword list of `_is_academic_document` (`src/utils/text_splitter.py`
line 46). -/
def academic_keywords : List String := ["thesis", "paper", "research", "ieee", "acm"]

/-- Embedding of `_is_academic_document` (`src/utils/text_splitter.py`
lines 41-48): some keyword occurs in the lower-cased file name. -/
def is_academic_document (fi : FileInfo) : Bool :=
  academic_keywords.any (fun kw => strContains (lowerStr fi.name) kw)

/-- Embedding of `_is_long_document` (`src/utils/text_splitter.py`
lines 51-59): `size / (1024*1024) > 1`, i.e. more than one megabyte. -/
def is_long_document (fi : FileInfo) : Bool :=
  decide (fi.sizeBytes > 1024 * 1024)

/-- Embedding of `get_text_splitter` (`src/utils/text_splitter.py`
lines 11-38).  The configured `CHUNK_SIZE` and `CHUNK_OVERLAP` are passed as
the parameters `S` and `O` (Python `//` on non-negative ints is `Nat.div`);
`fp = none` is a call with no `file_path` argument. -/
def get_text_splitter (S O : Nat) (fp : Option FileInfo) : TextSplitter :=
  match fp with
  | some fi =>
    if is_academic_document fi then
      { chunkSize := S / 2, chunkOverlap := O / 2 }
    else if is_long_document fi then
      { chunkSize := S, chunkOverlap := O }
    else
      { chunkSize := S, chunkOverlap := O }
  | none => { chunkSize := S, chunkOverlap := O }

/-- The splitter built by the `except` fallback branch of `get_text_splitter`
(`src/utils/text_splitter.py` line 38): `chunk_size=1000, chunk_overlap=100`. -/
def fallback_splitter : TextSplitter :=
  { chunkSize := 1000, chunkOverlap := 100 }

/-- Academic-or-not view of an optional file argument: a call without a file
path never takes the academic branch. -/
def isAcademicOpt : Option FileInfo → Bool
  | some fi => is_academic_document fi
  | none => false

/-- Concrete academic file used in counterexamples and witnesses. -/
def thesisFile : FileInfo := { name := "thesis.pdf", sizeBytes := 0 }

/-- Concrete large non-academic file (2 MiB). -/
def bigFile : FileInfo := { name := "notes.pdf", sizeBytes := 2 * 1024 * 1024 }

/-! ## Vector-store state (`src/utils/vectordb_utils.py`) -/

/-- Key of the global mirror index: `VECTOR_DB_PATH / "__global__"`. -/
def GLOBAL_KEY : String := "__global__"

/-- A stored chunk record together with the metadata fields that
`embed_single_file` (`src/utils/vectordb_utils.py` lines 463-467) and
`update_global_vectordb_with_file` (lines 373-376) write. -/
structure Doc where
  content : String
  source : String
  relativePath : String
  category : String
deriving DecidableEq, Repr

/-- State of the on-disk vector store: every index is addressed by its
directory key below `VECTOR_DB_PATH` (a category path or `__global__`) and
holds a list of records; `dirs` is the set of directories that exist. -/
structure VState where
  indexes : String → List Doc
  dirs : List String

/-- Directory creation with `exist_ok=True` (`Path.mkdir`). -/
def insertDir (dirs : List String) (d : String) : List String :=
  if dirs.contains d then dirs else d :: dirs

/-- Append records to the index stored under `key`
(`ChromaDB.add_documents` / `ChromaDB.from_documents` on that directory). -/
def VState.insert (s : VState) (key : String) (docs : List Doc) : VState :=
  { s with indexes := fun k => if k = key then s.indexes k ++ docs else s.indexes k }

/-- A file handed to the indexing pipeline: `path` is `str(file_path)`,
`name` is `file_path.name`, `underKB` says whether
`file_path.relative_to(KNOWLEDGE_BASE_PATH)` succeeds, in which case
`relPath` is that relative path and `parentCategory` is its parent. -/
structure FileP where
  path : String
  name : String
  underKB : Bool
  relPath : String
  parentCategory : String
deriving DecidableEq, Repr

/-- Environment of external effects for the indexing pipeline: the document
loader (`load_single_document`; a failed or empty load is `[]`), the text
splitter's chunking of one document's content, availability of the embedding
backend (`get_embedding_model` returning a model vs `None`), success of the
Chroma insert calls, of the Google Drive sync, and file existence. -/
structure EmbedEnv where
  loadDoc : String → List Doc
  chunker : Doc → List String
  embedAvailable : Bool
  categoryInsertOk : Bool
  fallbackInsertOk : Bool
  globalInsertOk : Bool
  driveSyncOk : Bool
  fileExists : String → Bool

/-- Embedding of `text_splitter.split_documents`: each document becomes one
chunk record per produced piece of content, with the metadata of the parent
document copied onto every chunk. -/
def split_documents (chunker : Doc → List String) (docs : List Doc) : List Doc :=
  (docs.map (fun d => (chunker d).map (fun c => { d with content := c }))).flatten

/-- Embedding of `add_documents_to_vectordb` (`src/utils/vectordb_utils.py`
lines 239-281).  An empty document list returns `True` at once (line 252-254)
before the target directory is determined or created; otherwise the target is
the category path when the Python `category` argument is truthy and
`__global__` otherwise, the directory is created, a Chroma instance is
opened (`chromaOk` = whether `get_chroma_instance` succeeds), and the
documents are appended. -/
def add_documents_to_vectordb (documents : List Doc) (category : Option String)
    (chromaOk : Bool) (s : VState) : Bool × VState :=
  if documents.isEmpty then (true, s)
  else
    let key := match category with
      | some c => if c = "" then GLOBAL_KEY else c
      | none => GLOBAL_KEY
    let s1 : VState := { s with dirs := insertDir s.dirs key }
    if chromaOk then (true, s1.insert key documents) else (false, s1)

/-- Embedding of `delete_vector_db` (`src/utils/vectordb_utils.py`
lines 286-294): if `VECTOR_DB_PATH / category` exists it is removed with
`shutil.rmtree`, and `True` is returned in either case. -/
def delete_vector_db (vfs : List String) (category : String) : Bool × List String :=
  if vfs.contains category then
    (true, vfs.filter (fun c => !(c == category)))
  else
    (true, vfs)

/-- Embedding of `update_global_vectordb_with_file`
(`src/utils/vectordb_utils.py` lines 362-402).  The file is loaded again; an
empty or failed load returns `False`; `file_path.relative_to` raises for a
file outside the knowledge base, which the `except` turns into `False`; the
chunks then carry `source = str(file_path)` and the relative path; if the
embedding backend is unavailable the function returns `False`; otherwise the
chunks are appended to the `__global__` index when the insert succeeds. -/
def update_global_vectordb_with_file (env : EmbedEnv) (fp : FileP) (s : VState) :
    Bool × VState :=
  let docs := env.loadDoc fp.path
  if docs.isEmpty then (false, s)
  else if !fp.underKB then (false, s)
  else
    let docs := docs.map (fun d => { d with source := fp.path, relativePath := fp.relPath })
    let split := split_documents env.chunker docs
    if !env.embedAvailable then (false, s)
    else if env.globalInsertOk then (true, s.insert GLOBAL_KEY split)
    else (false, s)

/-- Fallback Chroma directory used by `embed_single_file` when the primary
`from_documents` call fails (`src/utils/vectordb_utils.py` line 495):
`TEMP_DIR / "chroma_fallback" / category-with-slashes-replaced`. -/
def fallbackKey (categoryPath : String) : String :=
  "chroma_fallback/" ++ ⟨categoryPath.data.map (fun ch => if ch = '/' then '_' else ch)⟩

/-- Category-path resolution of `embed_single_file`
(`src/utils/vectordb_utils.py` lines 422-438): for a file under the knowledge
base the category defaults to the file's parent directory and the relative
path is the file's path below the root; for a file outside the knowledge base
a category must be given (else the function fails) and the relative path is
`category / name`.  The result pairs the category path with the relative
path. -/
def resolveCategory (fp : FileP) (category : Option String) : Option (String × String) :=
  if fp.underKB then
    match category with
    | none => some (fp.parentCategory, fp.relPath)
    | some c => some (c, fp.relPath)
  else
    match category with
    | none => none
    | some c => some (c, c ++ "/" ++ fp.name)

/-- Embedding of `embed_single_file` (`src/utils/vectordb_utils.py`
lines 407-529).  Control flow of the source: resolve the category path
(failure returns `False`); create the index directory; load the document
(an empty load returns `False`, after the directory was already created);
stamp `source`/`relative_path`/`category` metadata on every page; split into
chunks; obtain the embedding model — if unavailable an exception is raised
and caught, returning `False` before any insert; insert the chunks into the
category index, falling back to the temporary directory when the primary
insert fails (both failing raises, caught as `False`); then mirror into the
global index, where failure is only logged; then sync to Google Drive, where
failure is only logged; finally return `True`. -/
def embed_single_file (env : EmbedEnv) (fp : FileP) (category : Option String)
    (s : VState) : Bool × VState :=
  match resolveCategory fp category with
  | none => (false, s)
  | some (categoryPath, relPath) =>
    let s1 : VState := { s with dirs := insertDir s.dirs categoryPath }
    let docs := env.loadDoc fp.path
    if docs.isEmpty then (false, s1)
    else
      let docs := docs.map (fun d =>
        { d with source := fp.path, relativePath := relPath, category := categoryPath })
      let split := split_documents env.chunker docs
      if !env.embedAvailable then (false, s1)
      else
        match (if env.categoryInsertOk then some (s1.insert categoryPath split)
               else if env.fallbackInsertOk then some (s1.insert (fallbackKey categoryPath) split)
               else none) with
        | none => (false, s1)
        | some s2 =>
          let s3 := (update_global_vectordb_with_file env fp s2).2
          (true, s3)

/-- Walk of `rebuild_vectordb_for_files` (`src/utils/vectordb_utils.py`
lines 546-555): a file that does not exist is skipped with a warning; the
state effect of `embed_single_file` is kept whether or not it reports
success, and in either failure case the loop continues with the next file. -/
def rebuild_go (env : EmbedEnv) : List FileP → VState → VState
  | [], s => s
  | f :: rest, s =>
    if env.fileExists f.path then
      rebuild_go env rest (embed_single_file env f none s).2
    else
      rebuild_go env rest s

/-- Embedding of `rebuild_vectordb_for_files` (`src/utils/vectordb_utils.py`
lines 534-562): directory structure is ensured (the `__global__` directory is
created), each file is processed by the walk, and the function returns
`True`. -/
def rebuild_vectordb_for_files (env : EmbedEnv) (files : List FileP) (s : VState) :
    Bool × VState :=
  let s1 : VState := { s with dirs := insertDir s.dirs GLOBAL_KEY }
  (true, rebuild_go env files s1)

/-- Modelled from the spec: the repository's `rebuild_vectordb_for_files`
returns a plain boolean, and the spec sentence "the final result communicates
count of indexed vs. skipped files" has no counterpart in
`src/utils/vectordb_utils.py`; this definition follows the spec's words and
computes the pair (number of files indexed, number of files skipped) for a
run of the walk. -/
def spec_rebuild_counts (env : EmbedEnv) : List FileP → VState → Nat × Nat
  | [], _ => (0, 0)
  | f :: rest, s =>
    if env.fileExists f.path then
      let r := embed_single_file env f none s
      let p := spec_rebuild_counts env rest r.2
      if r.1 then (p.1 + 1, p.2) else (p.1, p.2 + 1)
    else
      let p := spec_rebuild_counts env rest s
      (p.1, p.2 + 1)

/-! ## Category deletion (`src/utils/manager_utils.py`) -/

/-- The two directory trees a category lives in: `kb` lists the category
directories under `KNOWLEDGE_BASE_PATH`, `vdb` the index directories under
`VECTOR_DB_PATH`.  The two roots are disjoint paths of
`src/config/config.py` lines 59-60. -/
structure World where
  kb : List String
  vdb : List String
deriving DecidableEq, Repr

/-- Embedding of `delete_category` (`src/utils/manager_utils.py`
lines 48-57): if `KNOWLEDGE_BASE_PATH / category` exists it is removed with
`shutil.rmtree` and `True` is returned; if it does not exist the function
falls through and returns Python `None` (modelled as `none`).  Only the
knowledge-base tree is touched. -/
def delete_category (w : World) (category : String) : Option Bool × World :=
  if w.kb.contains category then
    (some true, { w with kb := w.kb.filter (fun c => !(c == category)) })
  else
    (none, w)

/-- `delete_vector_db` acting on a `World`: it touches only the
`VECTOR_DB_PATH` tree. -/
def delete_vector_db_world (w : World) (category : String) : Bool × World :=
  let r := delete_vector_db w.vdb category
  (r.1, { w with vdb := r.2 })

/-! ## Category retriever (`src/core/document_chat_controller.py`) -/

/-- A retriever as built by `vectordb.as_retriever` in
`get_category_docs_retriever`: the records of the opened category index, the
optional `source $in selected_files` metadata filter, and `k = 4`. -/
structure Retriever where
  records : List Doc
  srcFilter : Option (List String)
  k : Nat
deriving DecidableEq, Repr

/-- Embedding of `get_category_docs_retriever`
(`src/core/document_chat_controller.py` lines 152-188).  `embedOk` is the
success of `get_embedding_model` and `initialize_chroma` (their failure
raises a `RuntimeError`, re-raised by the outer handler as the `.error`
case); a category index with zero records yields Python `None`
(`.ok none`); otherwise a retriever over the index is returned, with the
`source`-in-selection filter attached exactly when `selected_files` is
Python-truthy, i.e. a non-empty list. -/
def get_category_docs_retriever (embedOk : Bool) (index : List Doc)
    (selected_files : Option (List String)) : Except String (Option Retriever) :=
  if !embedOk then .error "Failed to initialize document retriever"
  else if index.length = 0 then .ok none
  else
    match selected_files with
    | some fs =>
      if fs.isEmpty then .ok (some { records := index, srcFilter := none, k := 4 })
      else .ok (some { records := index, srcFilter := some fs, k := 4 })
    | none => .ok (some { records := index, srcFilter := none, k := 4 })

/-- Chroma metadata filter semantics for `{"source": {"$in": sources}}`:
with no filter every record is eligible, otherwise only records whose
`source` metadata is one of the listed values. -/
def matchesFilter (flt : Option (List String)) (r : Doc) : Bool :=
  match flt with
  | none => true
  | some sources => sources.contains r.source

/-- Insert a record into a list that is sorted by descending score
(auxiliary for the similarity ranking). -/
def insertByScore (score : Doc → Nat) (d : Doc) : List Doc → List Doc
  | [] => [d]
  | x :: xs => if score x ≤ score d then d :: x :: xs else x :: insertByScore score d xs

/-- Sort records by descending similarity score. -/
def sortByScore (score : Doc → Nat) : List Doc → List Doc
  | [] => []
  | x :: xs => insertByScore score x (sortByScore score xs)

/-- A similarity search through a retriever: the store applies the metadata
filter, ranks the eligible records by similarity to the query (abstracted as
the `score` function), and returns the top `k`. -/
def similarity_search (score : Doc → Nat) (ret : Retriever) : List Doc :=
  (sortByScore score (ret.records.filter (matchesFilter ret.srcFilter))).take ret.k

/-- Does retriever resolution deliver an actual retriever (as opposed to an
error or Python `None`)? -/
def resolvedRetriever : Except String (Option Retriever) → Bool
  | .ok (some _) => true
  | .error _ => false
  | .ok none => false

/-! ## The `category_qa` branch of `handle_chat` (`src/core/chat_controller.py`) -/

/-- Outcome of the `category_qa` branch of `handle_chat`: the early warning
`"please select category and docs first"` (lines 62-64), the
`"document loading failed"` error for a retriever that could not be loaded
(lines 73-75), the outer exception handler (lines 156-158), or an answer
with source documents. -/
inductive ChatOutcome where
  | selectFirst
  | loadFailed
  | errorOut (msg : String)
  | answered (answer : String) (sources : List Doc)
deriving DecidableEq, Repr

/-- Python truthiness test `not selected_category` for an optional string:
`None` and the empty string are falsy. -/
def pyFalsyStr : Option String → Bool
  | none => true
  | some s => s == ""

/-- Embedding of the `category_qa` branch of `handle_chat`
(`src/core/chat_controller.py` lines 60-105).  A missing category or an
empty document selection returns the selection warning before the retriever
is resolved; then the retriever is resolved over the category index — a
raised `RuntimeError` is caught by the outer handler, a `None` retriever
yields the document-loading failure — and only then is the QA chain
(abstracted as `qa`) run. -/
def handle_chat_category_qa (embedOk : Bool) (selected_category : Option String)
    (selected_docs : List String) (index : List Doc)
    (qa : Retriever → String × List Doc) : ChatOutcome :=
  if pyFalsyStr selected_category || selected_docs.isEmpty then .selectFirst
  else
    match get_category_docs_retriever embedOk index (some selected_docs) with
    | .error msg => .errorOut msg
    | .ok none => .loadFailed
    | .ok (some ret) => .answered (qa ret).1 (qa ret).2

/-! ## Concrete fixtures used by witnesses and counterexamples -/

/-- Empty vector store. -/
def state0 : VState := { indexes := fun _ => [], dirs := [] }

/-- A one-page document as produced by a loader, before metadata stamping. -/
def doc0 : Doc := { content := "hello world", source := "", relativePath := "", category := "" }

/-- A file inside the knowledge base under category `tech`. -/
def fileTech : FileP :=
  { path := "/kb/tech/x.pdf", name := "x.pdf", underKB := true,
    relPath := "tech/x.pdf", parentCategory := "tech" }

/-- A knowledge-base file path that does not exist on disk. -/
def fileMissing : FileP :=
  { path := "/kb/missing.pdf", name := "missing.pdf", underKB := true,
    relPath := "missing.pdf", parentCategory := "." }

/-- Environment in which every external effect succeeds and only
`fileMissing` is absent from disk. -/
def stdEnv : EmbedEnv :=
  { loadDoc := fun _ => [doc0]
    chunker := fun d => [d.content]
    embedAvailable := true
    categoryInsertOk := true
    fallbackInsertOk := true
    globalInsertOk := true
    driveSyncOk := true
    fileExists := fun p => !(p == "/kb/missing.pdf") }

/-- Environment whose embedding backend is unavailable
(`get_embedding_model` returns `None`). -/
def envNoEmbed : EmbedEnv := { stdEnv with embedAvailable := false }

/-- Environment in which only the global-mirror insert fails. -/
def envMirror : EmbedEnv := { stdEnv with globalInsertOk := false }

/-- Category index holding records from two documents. -/
def docX : Doc := { content := "cx", source := "x.pdf", relativePath := "", category := "tech" }

/-- Second record, from a different source document. -/
def docY : Doc := { content := "cy", source := "y.pdf", relativePath := "", category := "tech" }

/-- Index over the two documents `x.pdf` and `y.pdf`. -/
def index2 : List Doc := [docX, docY]

/-- The retriever that `get_category_docs_retriever` builds over `index2`
for the selection `["x.pdf"]`. -/
def retX : Retriever := { records := index2, srcFilter := some ["x.pdf"], k := 4 }

/-- Constant similarity score. -/
def score0 : Doc → Nat := fun _ => 0

/-- Trivial QA chain. -/
def qa0 : Retriever → String × List Doc := fun _ => ("answer", [])

/-- World with the category `technology` present in both the knowledge base
and the vector store. -/
def worldTech : World := { kb := ["technology"], vdb := ["technology"] }

/-- A file that exists on disk but lies outside the knowledge base, so that
`embed_single_file` with no category argument fails for it (the
`relative_to` error path of `src/utils/vectordb_utils.py` lines 431-435). -/
def fileOutside : FileP :=
  { path := "/tmp/out.pdf", name := "out.pdf", underKB := false,
    relPath := "", parentCategory := "" }

/-! ## Helper lemmas -/

/-- Membership in the result of a score-ordered insertion comes from the
inserted element or the old list. -/
theorem mem_of_mem_insertByScore (score : Doc → Nat) (d a : Doc) (l : List Doc)
    (h : a ∈ insertByScore score d l) : a = d ∨ a ∈ l := by
  induction l with
  | nil => simpa [insertByScore] using h
  | cons x xs ih =>
    simp only [insertByScore] at h
    split at h
    · rcases List.mem_cons.mp h with h1 | h1
      · exact Or.inl h1
      · exact Or.inr h1
    · rcases List.mem_cons.mp h with h1 | h1
      · exact Or.inr (List.mem_cons.mpr (Or.inl h1))
      · rcases ih h1 with h2 | h2
        · exact Or.inl h2
        · exact Or.inr (List.mem_cons.mpr (Or.inr h2))

/-- Sorting by score never invents records. -/
theorem mem_of_mem_sortByScore (score : Doc → Nat) (a : Doc) (l : List Doc)
    (h : a ∈ sortByScore score l) : a ∈ l := by
  induction l with
  | nil => simp [sortByScore] at h
  | cons x xs ih =>
    simp only [sortByScore] at h
    rcases mem_of_mem_insertByScore score x a _ h with h1 | h1
    · simp [h1]
    · exact List.mem_cons.mpr (Or.inr (ih h1))

/-- Running `delete_vector_db` reports success and leaves no index directory
for the category. -/
theorem delete_vector_db_success_and_gone (vfs : List String) (c : String) :
    (delete_vector_db vfs c).1 = true ∧ c ∉ (delete_vector_db vfs c).2 := by
  unfold delete_vector_db
  by_cases h : c ∈ vfs
  · simp [h, List.mem_filter]
  · simp [h]

/-- A category with no index directory is returned unchanged with success. -/
theorem delete_vector_db_not_present (l : List String) (c : String)
    (h : l.contains c = false) : delete_vector_db l c = (true, l) := by
  have hm : c ∉ l := by simpa using h
  unfold delete_vector_db
  simp [hm]

/-- The result and index effect of the global-mirror update depend only on
the indexes of the starting state, not on its directory set. -/
theorem update_global_indexes_congr (env : EmbedEnv) (fp : FileP) (s t : VState)
    (h : s.indexes = t.indexes) :
    (update_global_vectordb_with_file env fp s).1
      = (update_global_vectordb_with_file env fp t).1 ∧
    (update_global_vectordb_with_file env fp s).2.indexes
      = (update_global_vectordb_with_file env fp t).2.indexes := by
  unfold update_global_vectordb_with_file VState.insert
  cases h1 : (env.loadDoc fp.path).isEmpty <;>
    cases h2 : fp.underKB <;>
      cases h3 : env.embedAvailable <;>
        cases h4 : env.globalInsertOk <;>
          simp [h1, h2, h3, h4, h]

/-- The result and index effect of `embed_single_file` depend only on the
indexes of the starting state. -/
theorem embed_single_file_indexes_congr (env : EmbedEnv) (fp : FileP)
    (cat : Option String) (s t : VState) (h : s.indexes = t.indexes) :
    (embed_single_file env fp cat s).1 = (embed_single_file env fp cat t).1 ∧
    (embed_single_file env fp cat s).2.indexes
      = (embed_single_file env fp cat t).2.indexes := by
  unfold embed_single_file
  cases hres : resolveCategory fp cat with
  | none => simp [h]
  | some pr =>
    obtain ⟨cp, rp⟩ := pr
    simp only []
    cases h1 : (env.loadDoc fp.path).isEmpty
    · cases h2 : env.embedAvailable
      · simp [h1, h2, h]
      · cases h3 : env.categoryInsertOk
        · cases h4 : env.fallbackInsertOk
          · simp [h1, h2, h3, h4, h]
          · simp only [h1, h2, h3, h4, Bool.not_true, Bool.false_eq_true, if_false, if_true]
            exact ⟨trivial, (update_global_indexes_congr env fp _ _
              (by simp [VState.insert, h])).2⟩
        · simp only [h1, h2, h3, Bool.not_true, Bool.false_eq_true, if_false, if_true]
          exact ⟨trivial, (update_global_indexes_congr env fp _ _
            (by simp [VState.insert, h])).2⟩
    · simp [h1, h]

/-- The walk of `rebuild_vectordb_for_files` preserves index-equality of
starting states. -/
theorem rebuild_go_indexes_congr (env : EmbedEnv) (files : List FileP)
    (s t : VState) (h : s.indexes = t.indexes) :
    (rebuild_go env files s).indexes = (rebuild_go env files t).indexes := by
  induction files generalizing s t with
  | nil => simpa [rebuild_go] using h
  | cons f rest ih =>
    unfold rebuild_go
    cases hf : env.fileExists f.path
    · simpa [hf] using ih s t h
    · simpa [hf] using ih _ _ (embed_single_file_indexes_congr env f none s t h).2

/-- A file whose load fails leaves every index unchanged (and the embedding
reports failure). -/
theorem embed_load_failure_indexes (env : EmbedEnv) (fp : FileP)
    (cat : Option String) (s : VState) (hl : env.loadDoc fp.path = []) :
    (embed_single_file env fp cat s).2.indexes = s.indexes := by
  unfold embed_single_file
  cases hres : resolveCategory fp cat <;> simp [hl]

/-- Whether `embed_single_file` reports success is independent of the
starting state: every branch condition reads only the environment and the
file. -/
theorem embed_result_state_independent (env : EmbedEnv) (fp : FileP)
    (cat : Option String) (s t : VState) :
    (embed_single_file env fp cat s).1 = (embed_single_file env fp cat t).1 := by
  unfold embed_single_file
  cases hres : resolveCategory fp cat with
  | none => rfl
  | some pr =>
    obtain ⟨cp, rp⟩ := pr
    cases h1 : (env.loadDoc fp.path).isEmpty
    · cases h2 : env.embedAvailable
      · simp [h1, h2]
      · cases h3 : env.categoryInsertOk
        · cases h4 : env.fallbackInsertOk
          · simp [h1, h2, h3, h4]
          · simp [h1, h2, h3, h4]
        · simp [h1, h2, h3]
    · simp [h1]

/-- A file on which `embed_single_file` reports failure leaves every index
unchanged: all failure exits happen before any insert. -/
theorem embed_failure_indexes (env : EmbedEnv) (fp : FileP)
    (cat : Option String) (s : VState)
    (h : (embed_single_file env fp cat s).1 = false) :
    (embed_single_file env fp cat s).2.indexes = s.indexes := by
  unfold embed_single_file at h ⊢
  cases hres : resolveCategory fp cat with
  | none => simp [hres]
  | some pr =>
    obtain ⟨cp, rp⟩ := pr
    rw [hres] at h
    cases h1 : (env.loadDoc fp.path).isEmpty
    · cases h2 : env.embedAvailable
      · simp [h1, h2]
      · cases h3 : env.categoryInsertOk
        · cases h4 : env.fallbackInsertOk
          · simp [h1, h2, h3, h4]
          · simp [h1, h2, h3, h4] at h
        · simp [h1, h2, h3] at h
    · simp [h1]

/-! ## Claim theorems -/

/-- Claim C6: under the default configuration `(CHUNK_SIZE, CHUNK_OVERLAP) =
(1000, 200)`, `get_text_splitter` yields chunk parameters `(500, 100)` for a
file whose name contains an academic token and `(1000, 200)` for every other
input, including files over 1 MB and calls without a file path. -/
theorem C6_chunk_parameter_table (fp : Option FileInfo) :
    ((get_text_splitter CHUNK_SIZE CHUNK_OVERLAP fp).chunkSize,
      (get_text_splitter CHUNK_SIZE CHUNK_OVERLAP fp).chunkOverlap)
      = if isAcademicOpt fp then (500, 100) else (1000, 200) := by
  cases fp with
  | none => rfl
  | some fi =>
    cases h : is_academic_document fi with
    | false =>
      simp only [get_text_splitter, isAcademicOpt, h, Bool.false_eq_true, if_false]
      split <;> rfl
    | true =>
      simp [get_text_splitter, isAcademicOpt, h, CHUNK_SIZE, CHUNK_OVERLAP]

/-- Claim C8 fails as stated: in the configuration `CHUNK_SIZE = 5`,
`CHUNK_OVERLAP = 4` (positive, with overlap smaller than the chunk size) the
academic branch of `get_text_splitter` halves both parameters to `(2, 2)`,
so the returned splitter does not satisfy `chunk_overlap < chunk_size`. -/
theorem C8_counterexample :
    0 < 4 ∧ 4 < 5 ∧
    ¬ ((get_text_splitter 5 4 (some thesisFile)).chunkOverlap
        < (get_text_splitter 5 4 (some thesisFile)).chunkSize) := by
  decide

/-- Claim C8, amended: if additionally the halved overlap is smaller than the
halved chunk size (true of the default configuration `(1000, 200)`), every
splitter `get_text_splitter` can return — default, academic, long-document,
and the exception fallback — satisfies `chunk_overlap < chunk_size`. -/
theorem C8_overlap_lt_chunk (S O : Nat) (fp : Option FileInfo)
    (h1 : O < S) (h2 : O / 2 < S / 2) :
    (get_text_splitter S O fp).chunkOverlap < (get_text_splitter S O fp).chunkSize ∧
    fallback_splitter.chunkOverlap < fallback_splitter.chunkSize := by
  constructor
  · cases fp with
    | none => simpa [get_text_splitter] using h1
    | some fi =>
      simp only [get_text_splitter]
      split
      · simpa using h2
      · split
        · simpa using h1
        · simpa using h1
  · decide

/-- Witness for C8 at the default configuration. -/
theorem C8_overlap_lt_chunk_witness :
    (200 < 1000 ∧ 200 / 2 < 1000 / 2) ∧
    ((get_text_splitter 1000 200 none).chunkOverlap
        < (get_text_splitter 1000 200 none).chunkSize ∧
      fallback_splitter.chunkOverlap < fallback_splitter.chunkSize) :=
  ⟨⟨by decide, by decide⟩, C8_overlap_lt_chunk 1000 200 none (by decide) (by decide)⟩

/-- Claim C9: adding an empty document list reports success and leaves the
whole vector store untouched — no directory is created, no index opened or
written — for every category argument, Chroma outcome and starting state. -/
theorem C9_add_documents_empty_noop (category : Option String) (chromaOk : Bool)
    (s : VState) : add_documents_to_vectordb [] category chromaOk s = (true, s) := by
  simp [add_documents_to_vectordb]

/-- Claim C10: `delete_vector_db` is total and idempotent over category keys:
it always reports success, afterwards the category has no index directory, a
second run succeeds and changes nothing, and a category without an index
directory is returned entirely unchanged. -/
theorem C10_delete_vector_db_idempotent (vfs : List String) (c : String) :
    (delete_vector_db vfs c).1 = true ∧
    c ∉ (delete_vector_db vfs c).2 ∧
    delete_vector_db (delete_vector_db vfs c).2 c = (true, (delete_vector_db vfs c).2) ∧
    (vfs.contains c = false → delete_vector_db vfs c = (true, vfs)) := by
  obtain ⟨h1, h2⟩ := delete_vector_db_success_and_gone vfs c
  refine ⟨h1, h2, ?_, ?_⟩
  · have hc : (delete_vector_db vfs c).2.contains c = false := by simpa using h2
    exact delete_vector_db_not_present _ _ hc
  · intro h
    exact delete_vector_db_not_present vfs c h

/-- Witness for C10 on a concrete store without the category. -/
theorem C10_delete_vector_db_idempotent_witness :
    (delete_vector_db ["a"] "b").1 = true ∧
    "b" ∉ (delete_vector_db ["a"] "b").2 ∧
    delete_vector_db (delete_vector_db ["a"] "b").2 "b"
      = (true, (delete_vector_db ["a"] "b").2) ∧
    delete_vector_db ["a"] "b" = (true, ["a"]) := by
  have h := C10_delete_vector_db_idempotent ["a"] "b"
  exact ⟨h.1, h.2.1, h.2.2.1, h.2.2.2 (by decide)⟩

/-- Claim C7 fails as stated: with the category `technology` present in both
trees, `delete_category` succeeds but the index directory under
`VECTOR_DB_PATH` remains — nothing in `delete_category` touches the vector
store. -/
theorem C7_counterexample :
    (delete_category worldTech "technology").1 = some true ∧
    "technology" ∈ (delete_category worldTech "technology").2.vdb := by
  decide

/-- Claim C7, amended: `delete_category` removes only the category's document
directory and reports success; the index directory under `VECTOR_DB_PATH` is
untouched by it, and is removed only by a separate `delete_vector_db` call,
after which neither directory remains. -/
theorem C7_delete_category_no_cascade (w : World) (c : String) (h : c ∈ w.kb) :
    (delete_category w c).1 = some true ∧
    c ∉ (delete_category w c).2.kb ∧
    (delete_category w c).2.vdb = w.vdb ∧
    (delete_vector_db_world (delete_category w c).2 c).1 = true ∧
    c ∉ (delete_vector_db_world (delete_category w c).2 c).2.kb ∧
    c ∉ (delete_vector_db_world (delete_category w c).2 c).2.vdb := by
  have hkb : delete_category w c
      = (some true, { w with kb := w.kb.filter (fun x => !(x == c)) }) := by
    unfold delete_category
    simp [h]
  rw [hkb]
  refine ⟨rfl, ?_, rfl, ?_, ?_, ?_⟩
  · simp [List.mem_filter]
  · exact (delete_vector_db_success_and_gone _ _).1
  · simp [delete_vector_db_world, List.mem_filter]
  · exact (delete_vector_db_success_and_gone _ _).2

/-- Claim C1: a search through the retriever that
`get_category_docs_retriever` returns for a non-empty document selection
yields only records whose `source` metadata is one of the selected
documents, whatever the category index contains and however the store ranks
similarity. -/
theorem C1_filter_soundness (index : List Doc) (sel : List String) (embedOk : Bool)
    (ret : Retriever) (score : Doc → Nat) (hsel : sel ≠ [])
    (hret : get_category_docs_retriever embedOk index (some sel) = .ok (some ret)) :
    (similarity_search score ret).all (fun r => sel.contains r.source) = true := by
  simp only [get_category_docs_retriever] at hret
  split at hret
  · simp at hret
  · split at hret
    · simp at hret
    · split at hret
      · rename_i hemp
        exact absurd (by simpa using hemp) hsel
      · simp only [Except.ok.injEq, Option.some.injEq] at hret
        subst hret
        rw [List.all_eq_true]
        intro r hr
        have h1 := List.mem_of_mem_take hr
        have h2 := mem_of_mem_sortByScore score r _ h1
        have h3 := List.of_mem_filter h2
        simpa [matchesFilter] using h3

/-- Witness for C1: selecting `x.pdf` against an index holding records from
`x.pdf` and `y.pdf` returns only `x.pdf` records. -/
theorem C1_filter_soundness_witness :
    ((["x.pdf"] : List String) ≠ []) ∧
    get_category_docs_retriever true index2 (some ["x.pdf"]) = .ok (some retX) ∧
    (similarity_search score0 retX).all
      (fun r => (["x.pdf"] : List String).contains r.source) = true :=
  ⟨by decide, by rfl,
    C1_filter_soundness index2 ["x.pdf"] true retX score0 (by decide) (by rfl)⟩

/-- Claim C2: when the embedding backend is unavailable
(`get_embedding_model` returns `None`), `embed_single_file` reports failure
and no records are inserted into any index — neither the category index nor
the global index changes, for every file, category argument and starting
state. -/
theorem C2_embed_unavailable_no_insert (env : EmbedEnv) (fp : FileP)
    (category : Option String) (s : VState) (h : env.embedAvailable = false) :
    (embed_single_file env fp category s).1 = false ∧
    (embed_single_file env fp category s).2.indexes = s.indexes := by
  unfold embed_single_file
  split
  · exact ⟨rfl, rfl⟩
  · by_cases hd : (env.loadDoc fp.path).isEmpty = true
    · simp [hd]
    · simp [hd, h]

/-- Witness for C2 on the concrete environment without a backend. -/
theorem C2_embed_unavailable_no_insert_witness :
    envNoEmbed.embedAvailable = false ∧
    ((embed_single_file envNoEmbed fileTech none state0).1 = false ∧
      (embed_single_file envNoEmbed fileTech none state0).2.indexes = state0.indexes) :=
  ⟨rfl, C2_embed_unavailable_no_insert envNoEmbed fileTech none state0 rfl⟩

/-- Claim C3 fails in its reporting half: two runs of
`rebuild_vectordb_for_files` with different indexed/skipped counts — one
existing file that indexes cleanly versus one missing file that is skipped —
return the very same final result `True`, so the final result does not
communicate the count of indexed vs. skipped files; the function's result is
a plain success boolean. -/
theorem C3_counterexample :
    spec_rebuild_counts stdEnv [fileTech] state0
      ≠ spec_rebuild_counts stdEnv [fileMissing] state0 ∧
    (rebuild_vectordb_for_files stdEnv [fileTech] state0).1
      = (rebuild_vectordb_for_files stdEnv [fileMissing] state0).1 := by
  constructor
  · decide
  · rfl

/-- Claim C3, amended: the walk processes the whole list even when an
individual file fails — a file that does not exist, or on which
`embed_single_file` fails (load failure, embedding backend down, failing
inserts, unresolvable category), is skipped without aborting the remaining
files, which are indexed exactly as if the failing file were absent — and
the run still reports plain success (`True`); per-file failures are only
logged as warnings, and no indexed-vs-skipped counts are returned.  The
embed-failure hypothesis is stated for every starting state, which by
`embed_result_state_independent` is no stronger than at any single state. -/
theorem C3_partial_failure_resilience (env : EmbedEnv) (l1 l2 : List FileP)
    (fbad : FileP) (s : VState)
    (h : env.fileExists fbad.path = false ∨
      ∀ u : VState, (embed_single_file env fbad none u).1 = false) :
    (rebuild_vectordb_for_files env (l1 ++ fbad :: l2) s).1 = true ∧
    (rebuild_vectordb_for_files env (l1 ++ fbad :: l2) s).2.indexes
      = (rebuild_vectordb_for_files env (l1 ++ l2) s).2.indexes := by
  refine ⟨rfl, ?_⟩
  unfold rebuild_vectordb_for_files
  generalize ({ s with dirs := insertDir s.dirs GLOBAL_KEY } : VState) = t
  induction l1 generalizing t with
  | nil =>
    simp only [List.nil_append]
    conv_lhs => rw [rebuild_go]
    cases hf : env.fileExists fbad.path
    · simp [hf]
    · rcases h with h | h
      · rw [hf] at h
        simp at h
      · simp only [hf, if_true]
        exact rebuild_go_indexes_congr env l2 _ _
          (embed_failure_indexes env fbad none t (h t))
  | cons f l1t ih =>
    simp only [List.cons_append]
    conv_lhs => rw [rebuild_go]
    conv_rhs => rw [rebuild_go]
    cases hf : env.fileExists f.path
    · simp only [hf, Bool.false_eq_true, if_false]
      exact ih t
    · simp only [hf, if_true]
      exact ih _

/-- Witness for C3: a file that exists but on which `embed_single_file`
fails (it lies outside the knowledge base and no category is given) is
skipped in the middle of a batch, and the rest of the batch is indexed as if
it were absent. -/
theorem C3_partial_failure_resilience_witness :
    (stdEnv.fileExists fileOutside.path = false ∨
      ∀ u : VState, (embed_single_file stdEnv fileOutside none u).1 = false) ∧
    ((rebuild_vectordb_for_files stdEnv ([fileTech] ++ fileOutside :: [fileTech]) state0).1
        = true ∧
      (rebuild_vectordb_for_files stdEnv ([fileTech] ++ fileOutside :: [fileTech]) state0).2.indexes
        = (rebuild_vectordb_for_files stdEnv ([fileTech] ++ [fileTech]) state0).2.indexes) :=
  ⟨Or.inr (fun _ => rfl),
    C3_partial_failure_resilience stdEnv [fileTech] [fileTech] fileOutside state0
      (Or.inr (fun _ => rfl))⟩

/-- Claim C4: when load, chunking, embedding and the category insert all
succeed but the global-mirror insert fails, `embed_single_file` still
reports success; the chunks land in the category index and the global index
is left as it was — the mirror failure is only logged. -/
theorem C4_mirror_failure_still_success (env : EmbedEnv) (fp : FileP) (c : String)
    (s : VState) (hload : env.loadDoc fp.path ≠ [])
    (hkb : fp.underKB = true) (hembed : env.embedAvailable = true)
    (hcat : env.categoryInsertOk = true) (hglob : env.globalInsertOk = false)
    (hc : c ≠ GLOBAL_KEY) :
    (embed_single_file env fp (some c) s).1 = true ∧
    (embed_single_file env fp (some c) s).2.indexes GLOBAL_KEY
      = s.indexes GLOBAL_KEY ∧
    (embed_single_file env fp (some c) s).2.indexes c
      = s.indexes c ++ split_documents env.chunker
          ((env.loadDoc fp.path).map (fun d =>
            { d with source := fp.path, relativePath := fp.relPath, category := c })) := by
  have hd : (env.loadDoc fp.path).isEmpty = false := by simpa using hload
  have hres : resolveCategory fp (some c) = some (c, fp.relPath) := by
    unfold resolveCategory
    simp [hkb]
  have hgk : ¬ (GLOBAL_KEY = c) := fun hgc => hc hgc.symm
  unfold embed_single_file
  rw [hres]
  unfold update_global_vectordb_with_file
  simp [hd, hembed, hcat, hkb, hglob, VState.insert, hgk]

/-- Witness for C4 on the concrete mirror-failure environment. -/
theorem C4_mirror_failure_still_success_witness :
    envMirror.loadDoc fileTech.path ≠ [] ∧
    fileTech.underKB = true ∧
    envMirror.embedAvailable = true ∧
    envMirror.categoryInsertOk = true ∧
    envMirror.globalInsertOk = false ∧
    ("tech" : String) ≠ GLOBAL_KEY ∧
    ((embed_single_file envMirror fileTech (some "tech") state0).1 = true ∧
      (embed_single_file envMirror fileTech (some "tech") state0).2.indexes GLOBAL_KEY
        = state0.indexes GLOBAL_KEY ∧
      (embed_single_file envMirror fileTech (some "tech") state0).2.indexes "tech"
        = state0.indexes "tech" ++ split_documents envMirror.chunker
            ((envMirror.loadDoc fileTech.path).map (fun d =>
              { d with source := fileTech.path, relativePath := fileTech.relPath,
                       category := "tech" }))) :=
  ⟨by decide, rfl, rfl, rfl, rfl, by decide,
    C4_mirror_failure_still_success envMirror fileTech "tech" state0
      (by decide) rfl rfl rfl rfl (by decide)⟩

/-- Claim C5: the `category_qa` branch fails fast with the selection warning
whenever the category is missing or empty or no documents are selected —
independently of the index contents and of the embedding backend, so before
any loading — and a category index with zero records makes the branch report
the distinct document-loading failure, because retriever resolution over an
empty index never returns a successful retriever. -/
theorem C5_selection_and_empty_index (embedOk : Bool) (index : List Doc)
    (qa : Retriever → String × List Doc) (c : String) (docs : List String)
    (hc : ¬ c = "") (hd : docs ≠ []) :
    handle_chat_category_qa embedOk none docs index qa = .selectFirst ∧
    handle_chat_category_qa embedOk (some "") docs index qa = .selectFirst ∧
    handle_chat_category_qa embedOk (some c) [] index qa = .selectFirst ∧
    handle_chat_category_qa true (some c) docs [] qa = .loadFailed ∧
    resolvedRetriever (get_category_docs_retriever embedOk [] (some docs)) = false := by
  have hcb : (c == "") = false := by simpa using hc
  have hde : docs.isEmpty = false := by simpa using hd
  refine ⟨rfl, rfl, ?_, ?_, ?_⟩
  · simp [handle_chat_category_qa, pyFalsyStr, hcb]
  · simp [handle_chat_category_qa, pyFalsyStr, hcb, hde, get_category_docs_retriever]
  · cases embedOk <;> simp [get_category_docs_retriever, resolvedRetriever]

/-- Witness for C5 on concrete selections and an empty index. -/
theorem C5_selection_and_empty_index_witness :
    (¬ "technology" = "") ∧ ((["x.pdf"] : List String) ≠ []) ∧
    (handle_chat_category_qa true none ["x.pdf"] index2 qa0 = .selectFirst ∧
      handle_chat_category_qa true (some "") ["x.pdf"] index2 qa0 = .selectFirst ∧
      handle_chat_category_qa true (some "technology") [] index2 qa0 = .selectFirst ∧
      handle_chat_category_qa true (some "technology") ["x.pdf"] [] qa0 = .loadFailed ∧
      resolvedRetriever (get_category_docs_retriever true [] (some ["x.pdf"])) = false) :=
  ⟨by decide, by decide,
    C5_selection_and_empty_index true index2 qa0 "technology" ["x.pdf"]
      (by decide) (by decide)⟩

/-- Witness for C7 on the concrete two-tree world. -/
theorem C7_delete_category_no_cascade_witness :
    ("technology" ∈ worldTech.kb) ∧
    ((delete_category worldTech "technology").1 = some true ∧
      "technology" ∉ (delete_category worldTech "technology").2.kb ∧
      (delete_category worldTech "technology").2.vdb = worldTech.vdb ∧
      (delete_vector_db_world (delete_category worldTech "technology").2 "technology").1 = true ∧
      "technology" ∉ (delete_vector_db_world (delete_category worldTech "technology").2 "technology").2.kb ∧
      "technology" ∉ (delete_vector_db_world (delete_category worldTech "technology").2 "technology").2.vdb) :=
  ⟨by decide, C7_delete_category_no_cascade worldTech "technology" (by decide)⟩

end AIKB
